import Mathlib

/-!
Shallow embedding of the AI chatbot (src/chatbot.py, with the Gemini variant
src/geminiChatBot.py sharing the same history, UI and engine logic) in Lean 4.

Modelling conventions:
* Python strings are Lean `String`s; code-point level operations (slicing
  `s[:200]`, `len`, `str.strip`, `str.upper`, `'\n'.join`) are embedded over
  the code-point list `s.data`, matching Python's code-point semantics.
* The OpenAI / Gemini network call is an external effect: it is modelled as a
  function (`Provider`) from the request to `Except String String`, where
  `.error e` stands for a raised exception with message `str(e) = e` and
  `.ok raw` stands for a successful response whose extracted text is `raw`.
* `datetime.now().strftime(...)` is external wall-clock input; the formatted
  timestamp is passed in as a parameter.
* The on-disk history file is a `DiskState`: missing, unreadable/corrupt
  (a read raises, with message `err`), or a parsed JSON array of entries.
  A write failure is modelled by the parameter `writeErr : Option String`
  (`none` = the write succeeds, `some e` = the write raises with message `e`).
* Console output (`print`) is collected as a list of printed strings.
-/

set_option maxRecDepth 4096

namespace Chatbot

/-- Python `str.strip()` on the code-point list: drop whitespace from both
ends (embeds CPython's whitespace stripping for the ASCII whitespace that
occurs in this program). -/
def stripChars (cs : List Char) : List Char :=
  ((cs.dropWhile Char.isWhitespace).reverse.dropWhile Char.isWhitespace).reverse

/-- Python `s.strip()`. -/
def pyStrip (s : String) : String := String.mk (stripChars s.data)

/-- Python `s.upper()` (ASCII uppercase, which covers every string this
program compares). -/
def pyUpper (s : String) : String := String.mk (s.data.map Char.toUpper)

/-- One record of the persisted conversation history: the dict literal built
in `AIChatbot._save_to_history` (chatbot.py lines 192-197).  `mode` is
`Option String` because `self.current_mode` is initialised to Python `None`. -/
structure ConversationEntry where
  timestamp : String
  mode : Option String
  user_input : String
  ai_response : String
deriving Repr, DecidableEq

/-- The truncation applied to `user_input` and `ai_response` in
`_save_to_history`: `s[:200] + "..." if len(s) > 200 else s`. -/
def truncateField (s : String) : String :=
  if s.length > 200 then String.mk (s.data.take 200) ++ "..." else s

/-- The state of the on-disk history JSON file. -/
inductive DiskState where
  /-- `os.path.exists` is false. -/
  | missing
  /-- The file exists but opening/parsing raises with message `err`. -/
  | corrupt (err : String)
  /-- The file holds a JSON array of entries. -/
  | ok (entries : List ConversationEntry)
deriving Repr, DecidableEq

/-- The mutable fields of `AIChatbot` relevant to the claims:
`self.conversation_history` and `self.current_mode` (chatbot.py lines 64-68). -/
structure BotState where
  conversation_history : List ConversationEntry
  current_mode : Option String
deriving Repr, DecidableEq

/-- The state right after `AIChatbot.__init__`: empty in-memory history,
`current_mode = None`. -/
def initBot : BotState :=
  { conversation_history := [], current_mode := none }

/-- The history-loading block of `_save_to_history` (chatbot.py lines
202-211): missing file or read error yield the empty array, the read-error
branch additionally prints a warning.  Returns (history, printed lines). -/
def loadHistory : DiskState → List ConversationEntry × List String
  | .missing => ([], [])
  | .corrupt e => ([], ["Warning: Could not load history file: " ++ e])
  | .ok h => (h, [])

/-- Result of `_save_to_history`: the updated bot, the updated disk and the
console lines printed during the call. -/
structure SaveResult where
  bot : BotState
  disk : DiskState
  console : List String
deriving Repr, DecidableEq

/-- `AIChatbot._save_to_history` (chatbot.py lines 182-221): build the entry
with the truncation rule, append it to the in-memory list, read the on-disk
array (tolerating missing/corrupt files), append the entry, write the array
back; a write error is caught and reported as a warning, leaving the old
disk contents in place. -/
def save_to_history (timestamp : String) (writeErr : Option String)
    (user_input ai_response : String) (mode : Option String)
    (st : BotState) (disk : DiskState) : SaveResult :=
  let entry : ConversationEntry :=
    { timestamp := timestamp
      mode := mode
      user_input := truncateField user_input
      ai_response := truncateField ai_response }
  let st' : BotState := { st with conversation_history := st.conversation_history ++ [entry] }
  let loaded := loadHistory disk
  let newHistory := loaded.1 ++ [entry]
  match writeErr with
  | none => { bot := st', disk := .ok newHistory, console := loaded.2 }
  | some e =>
      { bot := st', disk := disk
        console := loaded.2 ++ ["Warning: Could not save to history file: " ++ e] }

/-- One message of the OpenAI chat payload. -/
structure Message where
  role : String
  content : String
deriving Repr, DecidableEq

/-- The external model call: maps the request messages to either the
extracted response text or a raised exception's message. -/
def Provider : Type := List Message → Except String String

/-- The `messages` list built in `send_to_openai` (chatbot.py lines 92-105):
optional system message followed by the user message. -/
def buildMessages (user_message : String) (system_prompt : Option String) :
    List Message :=
  (match system_prompt with
    | some sp => [{ role := "system", content := sp }]
    | none => []) ++ [{ role := "user", content := user_message }]

/-- Result of `send_to_openai`: the returned value (`none` = Python `None`),
the updated bot and disk, and the console lines printed. -/
structure SendResult where
  response : Option String
  bot : BotState
  disk : DiskState
  console : List String
deriving Repr, DecidableEq

/-- `AIChatbot.send_to_openai` (chatbot.py lines 76-127): build the messages,
call the provider; on success strip the text, save to history and return it;
on any exception print a diagnostic and return `None`. -/
def send_to_openai (provider : Provider) (timestamp : String)
    (writeErr : Option String) (user_message : String)
    (system_prompt : Option String) (st : BotState) (disk : DiskState) :
    SendResult :=
  match provider (buildMessages user_message system_prompt) with
  | .error e =>
      { response := none, bot := st, disk := disk
        console := ["\n❌ Error communicating with OpenAI API: " ++ e] }
  | .ok raw =>
      let ai_response := pyStrip raw
      let saved :=
        save_to_history timestamp writeErr user_message ai_response
          st.current_mode st disk
      { response := some ai_response, bot := saved.bot, disk := saved.disk
        console := saved.console }

/-- `Config.FAQ_SYSTEM_PROMPT` (chatbot.py lines 37-38, a triple-quoted
string spanning two source lines). -/
def FAQ_SYSTEM_PROMPT : String :=
  "You are a helpful FAQ assistant. Answer questions \n    clearly, concisely, and accurately. If you don't know the answer, say so."

/-- `Config.SUMMARIZE_SYSTEM_PROMPT` (chatbot.py lines 40-41). -/
def SUMMARIZE_SYSTEM_PROMPT : String :=
  "You are a text summarization expert. Provide \n    clear, concise summaries that capture the main points of the given text."

/-- `AIChatbot.answer_faq` (chatbot.py lines 133-152): set the mode to FAQ,
print the progress line, delegate to `send_to_openai` with the FAQ system
prompt and the raw question. -/
def answer_faq (provider : Provider) (timestamp : String)
    (writeErr : Option String) (question : String) (st : BotState)
    (disk : DiskState) : SendResult :=
  let st := { st with current_mode := some "FAQ" }
  let r := send_to_openai provider timestamp writeErr question
    (some FAQ_SYSTEM_PROMPT) st disk
  { r with console := "\n🤖 Processing your question..." :: r.console }

/-- The f-string request message built in `summarize_text`
(chatbot.py line 168). -/
def summaryPrompt (text : String) : String :=
  "Please provide a clear and concise summary of the following text:\n\n" ++ text

/-- `AIChatbot.summarize_text` (chatbot.py lines 154-176): set the mode to
SUMMARIZE, print the progress line, build the summarization request message
and delegate to `send_to_openai` with the summarization system prompt. -/
def summarize_text (provider : Provider) (timestamp : String)
    (writeErr : Option String) (text : String) (st : BotState)
    (disk : DiskState) : SendResult :=
  let st := { st with current_mode := some "SUMMARIZE" }
  let r := send_to_openai provider timestamp writeErr (summaryPrompt text)
    (some SUMMARIZE_SYSTEM_PROMPT) st disk
  { r with console := "\n📝 Generating summary..." :: r.console }

/-- Outcome of `get_multiline_input` on a given sequence of typed lines. -/
inductive MultilineResult where
  /-- The function returned Python `None` (the CANCEL branch). -/
  | cancelled
  /-- The function returned the string `s`. -/
  | text (s : String)
  /-- The supplied input lines ran out before the loop terminated (the real
  program would keep blocking on `input()`). -/
  | exhausted
deriving Repr, DecidableEq

/-- The collection loop of `get_multiline_input` (chatbot.py lines 295-312),
parameterised by the remaining input lines, the current
`empty_line_count` and the accumulated `lines`. -/
def multilineLoop : List String → Nat → List String → MultilineResult
  | [], _, _ => .exhausted
  | line :: rest, emptyCount, lines =>
    if pyUpper line = "CANCEL" then .cancelled
    else if line = "" then
      if emptyCount + 1 ≥ 2 then
        .text (pyStrip (String.intercalate "\n" lines))
      else multilineLoop rest (emptyCount + 1) lines
    else multilineLoop rest 0 (lines ++ [line])

/-- `get_multiline_input` (chatbot.py lines 282-312) applied to the sequence
of lines the user types. -/
def get_multiline_input (inputLines : List String) : MultilineResult :=
  multilineLoop inputLines 0 []

/-- The single-string prompt built by the Gemini variant
(geminiChatBot.py lines 103-107): optional stripped system prompt and the
stripped user message joined with a blank line. -/
def geminiPrompt (user_message : String) (system_prompt : Option String) :
    String :=
  String.intercalate "\n\n"
    ((match system_prompt with
      | some sp => [pyStrip sp]
      | none => []) ++ [pyStrip user_message])

/-- `AIChatbot.send_to_openai` of the Gemini variant (geminiChatBot.py lines
86-137): build the single prompt, call the model, strip the response text,
save to history and return it; on any exception print a diagnostic and
return `None`.  The external call maps the prompt string to the extracted
response text or the raised exception message. -/
def gemini_send_to_openai (provider : String → Except String String)
    (timestamp : String) (writeErr : Option String) (user_message : String)
    (system_prompt : Option String) (st : BotState) (disk : DiskState) :
    SendResult :=
  match provider (geminiPrompt user_message system_prompt) with
  | .error e =>
      { response := none, bot := st, disk := disk
        console := ["\n❌ Error communicating with Gemini API: " ++ e] }
  | .ok raw =>
      let ai_response := pyStrip raw
      let saved :=
        save_to_history timestamp writeErr user_message ai_response
          st.current_mode st disk
      { response := some ai_response, bot := saved.bot, disk := saved.disk
        console := saved.console }

/-- The JSON array of entries currently parseable from the history file
(empty when the file is missing or unreadable). -/
def diskEntries : DiskState → List ConversationEntry
  | .ok h => h
  | .missing => []
  | .corrupt _ => []

/-- One user-driven operation of the conversation engine during a session,
carrying the external wall-clock timestamp of its save. -/
inductive Op where
  | faq (question : String) (ts : String)
  | summarize (text : String) (ts : String)
deriving Repr, DecidableEq

/-- Dispatch one operation to the engine method it names. -/
def runOp (provider : Provider) (writeErr : Option String) :
    Op → BotState → DiskState → SendResult
  | .faq q ts, st, disk => answer_faq provider ts writeErr q st disk
  | .summarize t ts, st, disk => summarize_text provider ts writeErr t st disk

/-- Run a session: perform the operations in order, threading the bot state
and the history file. -/
def runOps (provider : Provider) (writeErr : Option String) :
    List Op → BotState → DiskState → BotState × DiskState
  | [], st, disk => (st, disk)
  | op :: rest, st, disk =>
    runOps provider writeErr rest (runOp provider writeErr op st disk).bot
      (runOp provider writeErr op st disk).disk

/-- The user message the operation sends (the raw question for FAQ, the
summarization request message for SUMMARIZE). -/
def opUserMessage : Op → String
  | .faq q _ => q
  | .summarize t _ => summaryPrompt t

/-- The system prompt the operation sends. -/
def opSystemPrompt : Op → String
  | .faq _ _ => FAQ_SYSTEM_PROMPT
  | .summarize _ _ => SUMMARIZE_SYSTEM_PROMPT

/-- The mode string the operation assigns to `current_mode`. -/
def opMode : Op → String
  | .faq _ _ => "FAQ"
  | .summarize _ _ => "SUMMARIZE"

/-- The timestamp parameter of the operation. -/
def opTimestamp : Op → String
  | .faq _ ts => ts
  | .summarize _ ts => ts

/-- The request messages the operation hands to the provider. -/
def opMessages (op : Op) : List Message :=
  buildMessages (opUserMessage op) (some (opSystemPrompt op))

/-- The history entry a successful operation records: its timestamp, its
mode, and the truncations of the user message and of the stripped provider
response. -/
def expectedEntry (provider : Provider) (op : Op) : ConversationEntry :=
  { timestamp := opTimestamp op
    mode := some (opMode op)
    user_input := truncateField (opUserMessage op)
    ai_response :=
      truncateField (pyStrip ((provider (opMessages op)).toOption.getD "")) }

end Chatbot

namespace Chatbot

/-! ### Helper lemmas -/

theorem loadHistory_fst (disk : DiskState) :
    (loadHistory disk).1 = diskEntries disk := by
  cases disk <;> rfl

theorem truncateField_length_le (s : String) :
    (truncateField s).length ≤ 203 := by
  unfold truncateField
  split
  · rw [String.length_append]
    have h2 : (s.data.take 200).length ≤ 200 := List.length_take_le 200 s.data
    have h1 : (String.mk (s.data.take 200)).length = (s.data.take 200).length :=
      rfl
    have h3 : ("..." : String).length = 3 := rfl
    omega
  · omega

theorem save_to_history_bot (ts : String) (writeErr : Option String)
    (ui ar : String) (m : Option String) (st : BotState) (disk : DiskState) :
    (save_to_history ts writeErr ui ar m st disk).bot.conversation_history
      = st.conversation_history
        ++ [{ timestamp := ts, mode := m, user_input := truncateField ui,
              ai_response := truncateField ar }] := by
  cases writeErr <;> rfl

theorem save_to_history_disk_ok (ts : String) (ui ar : String)
    (m : Option String) (st : BotState) (disk : DiskState) :
    (save_to_history ts none ui ar m st disk).disk
      = .ok (diskEntries disk
          ++ [{ timestamp := ts, mode := m, user_input := truncateField ui,
                ai_response := truncateField ar }]) := by
  cases disk <;> rfl

/-! ### Claim theorems -/

/-- C1: the entry recorded by `_save_to_history` persists `user_input` and
`ai_response` under the 200-character truncation rule: a text longer than
200 characters is stored as its first 200 characters followed by the marker
"...", and a text of length at most 200 is stored unchanged. -/
theorem C1_truncation_rule (ts : String) (writeErr : Option String)
    (ui ar : String) (m : Option String) (st : BotState) (disk : DiskState) :
    ∃ e : ConversationEntry,
      (save_to_history ts writeErr ui ar m st disk).bot.conversation_history
        = st.conversation_history ++ [e]
      ∧ (200 < ui.length → e.user_input = String.mk (ui.data.take 200) ++ "...")
      ∧ (ui.length ≤ 200 → e.user_input = ui)
      ∧ (200 < ar.length → e.ai_response = String.mk (ar.data.take 200) ++ "...")
      ∧ (ar.length ≤ 200 → e.ai_response = ar) := by
  refine ⟨{ timestamp := ts, mode := m, user_input := truncateField ui,
            ai_response := truncateField ar },
          save_to_history_bot ts writeErr ui ar m st disk, ?_, ?_, ?_, ?_⟩
  · intro h
    show truncateField ui = String.mk (ui.data.take 200) ++ "..."
    unfold truncateField
    rw [if_pos (show ui.length > 200 by omega)]
  · intro h
    show truncateField ui = ui
    unfold truncateField
    rw [if_neg (show ¬ ui.length > 200 by omega)]
  · intro h
    show truncateField ar = String.mk (ar.data.take 200) ++ "..."
    unfold truncateField
    rw [if_pos (show ar.length > 200 by omega)]
  · intro h
    show truncateField ar = ar
    unfold truncateField
    rw [if_neg (show ¬ ar.length > 200 by omega)]

/-- Witness for C1 at a 201-character user text and a short response. -/
theorem C1_truncation_rule_witness :
    200 < (String.mk (List.replicate 201 'a')).length
    ∧ ("ok" : String).length ≤ 200
    ∧ ∃ e : ConversationEntry,
        (save_to_history "2025-10-12 00:00:00" none
            (String.mk (List.replicate 201 'a')) "ok" (some "FAQ") initBot
            .missing).bot.conversation_history
          = initBot.conversation_history ++ [e]
        ∧ (200 < (String.mk (List.replicate 201 'a')).length →
            e.user_input
              = String.mk ((String.mk (List.replicate 201 'a')).data.take 200)
                ++ "...")
        ∧ ((String.mk (List.replicate 201 'a')).length ≤ 200 →
            e.user_input = String.mk (List.replicate 201 'a'))
        ∧ (200 < ("ok" : String).length →
            e.ai_response = String.mk (("ok" : String).data.take 200) ++ "...")
        ∧ (("ok" : String).length ≤ 200 → e.ai_response = "ok") :=
  ⟨by decide, by decide,
   C1_truncation_rule "2025-10-12 00:00:00" none
     (String.mk (List.replicate 201 'a')) "ok" (some "FAQ") initBot .missing⟩

/-- C10: every entry `_save_to_history` records is bounded: both persisted
text fields have length at most 203 (200 content characters plus the
3-character marker), in the session list and, when the write succeeds, in
the on-disk array. -/
theorem C10_entry_size_bound (ts : String) (writeErr : Option String)
    (ui ar : String) (m : Option String) (st : BotState) (disk : DiskState) :
    ∃ e : ConversationEntry,
      (save_to_history ts writeErr ui ar m st disk).bot.conversation_history
        = st.conversation_history ++ [e]
      ∧ (writeErr = none →
          (save_to_history ts writeErr ui ar m st disk).disk
            = .ok (diskEntries disk ++ [e]))
      ∧ e.user_input.length ≤ 203
      ∧ e.ai_response.length ≤ 203 := by
  refine ⟨{ timestamp := ts, mode := m, user_input := truncateField ui,
            ai_response := truncateField ar },
          save_to_history_bot ts writeErr ui ar m st disk, ?_,
          truncateField_length_le ui, truncateField_length_le ar⟩
  rintro rfl
  exact save_to_history_disk_ok ts ui ar m st disk

/-- Witness for C10 at a 500-character user text. -/
theorem C10_entry_size_bound_witness :
    ∃ e : ConversationEntry,
      (save_to_history "2025-10-12 00:00:00" none
          (String.mk (List.replicate 500 'x')) "fine" (some "SUMMARIZE")
          initBot (.ok [])).bot.conversation_history
        = initBot.conversation_history ++ [e]
      ∧ ((none : Option String) = none →
          (save_to_history "2025-10-12 00:00:00" none
              (String.mk (List.replicate 500 'x')) "fine" (some "SUMMARIZE")
              initBot (.ok [])).disk
            = .ok (diskEntries (.ok []) ++ [e]))
      ∧ e.user_input.length ≤ 203
      ∧ e.ai_response.length ≤ 203 :=
  C10_entry_size_bound "2025-10-12 00:00:00" none
    (String.mk (List.replicate 500 'x')) "fine" (some "SUMMARIZE") initBot
    (.ok [])

/-- C4: on the line sequence "line1", "line2", "", "" the multi-line
collector returns the text joining the two lines with a newline; any input
whose first line upper-cases to CANCEL returns the null/cancel result,
which is a different value from every text result, in particular from the
empty-string result. -/
theorem C4_multiline_terminator_and_cancel :
    get_multiline_input ["line1", "line2", "", ""] = .text "line1\nline2"
    ∧ (∀ first rest, pyUpper first = "CANCEL" →
        get_multiline_input (first :: rest) = .cancelled)
    ∧ (∀ s, MultilineResult.cancelled = .text s → False) := by
  refine ⟨by decide, ?_, ?_⟩
  · intro first rest h
    unfold get_multiline_input multilineLoop
    rw [if_pos h]
  · intro s h
    exact MultilineResult.noConfusion h

/-- Witness for C4: the lowercase token cancels. -/
theorem C4_multiline_terminator_and_cancel_witness :
    pyUpper "cancel" = "CANCEL"
    ∧ get_multiline_input ["cancel", "x"] = .cancelled
    ∧ (MultilineResult.cancelled = .text "" → False) :=
  ⟨by decide,
   C4_multiline_terminator_and_cancel.2.1 "cancel" ["x"] (by decide),
   C4_multiline_terminator_and_cancel.2.2 ""⟩

/-- C5: when the provider call raises, `send_to_openai` (in both the OpenAI
and the Gemini variant) does not propagate the exception to its caller: it
prints the diagnostic line naming the error and returns `None`. -/
theorem C5_provider_error_swallowed (provider : Provider)
    (gprovider : String → Except String String) (ts : String)
    (writeErr : Option String) (msg : String) (sys : Option String)
    (st : BotState) (disk : DiskState) (e eg : String)
    (h : provider (buildMessages msg sys) = .error e)
    (hg : gprovider (geminiPrompt msg sys) = .error eg) :
    (send_to_openai provider ts writeErr msg sys st disk).response = none
    ∧ (send_to_openai provider ts writeErr msg sys st disk).console
        = ["\n❌ Error communicating with OpenAI API: " ++ e]
    ∧ (gemini_send_to_openai gprovider ts writeErr msg sys st disk).response
        = none
    ∧ (gemini_send_to_openai gprovider ts writeErr msg sys st disk).console
        = ["\n❌ Error communicating with Gemini API: " ++ eg] := by
  unfold send_to_openai gemini_send_to_openai
  rw [h, hg]
  exact ⟨rfl, rfl, rfl, rfl⟩

/-- Witness for C5 with a provider that always raises. -/
theorem C5_provider_error_swallowed_witness :
    (send_to_openai (fun _ => .error "boom") "t" none "hello" none initBot
        .missing).response = none
    ∧ (send_to_openai (fun _ => .error "boom") "t" none "hello" none initBot
        .missing).console
        = ["\n❌ Error communicating with OpenAI API: " ++ "boom"]
    ∧ (gemini_send_to_openai (fun _ => .error "net down") "t" none "hello"
        none initBot .missing).response = none
    ∧ (gemini_send_to_openai (fun _ => .error "net down") "t" none "hello"
        none initBot .missing).console
        = ["\n❌ Error communicating with Gemini API: " ++ "net down"] :=
  C5_provider_error_swallowed (fun _ => .error "boom")
    (fun _ => .error "net down") "t" none "hello" none initBot .missing
    "boom" "net down" rfl rfl

theorem multilineLoop_text_shape (input : List String) :
    ∀ (cnt : Nat) (acc : List String), (∀ l ∈ acc, l ≠ "") →
      ∀ s, multilineLoop input cnt acc = .text s →
        ∃ ls, (∀ l ∈ ls, l ≠ "")
          ∧ s = pyStrip (String.intercalate "\n" ls) := by
  induction input with
  | nil =>
    intro cnt acc hacc s h
    exact absurd h (by simp [multilineLoop])
  | cons line rest ih =>
    intro cnt acc hacc s h
    rw [multilineLoop] at h
    by_cases hc : pyUpper line = "CANCEL"
    · rw [if_pos hc] at h
      exact MultilineResult.noConfusion h
    · rw [if_neg hc] at h
      by_cases he : line = ""
      · rw [if_pos he] at h
        by_cases hcnt : cnt + 1 ≥ 2
        · rw [if_pos hcnt] at h
          refine ⟨acc, hacc, ?_⟩
          cases h
          rfl
        · rw [if_neg hcnt] at h
          exact ih (cnt + 1) acc hacc s h
      · rw [if_neg he] at h
        refine ih 0 (acc ++ [line]) ?_ s h
        intro l hl
        rcases List.mem_append.mp hl with h1 | h1
        · exact hacc l h1
        · rw [List.mem_singleton.mp h1]
          exact he

/-- C9: the multi-line collector keeps no blank line: an interior single
blank line between two non-empty lines is dropped, only exactly-empty lines
count as blank (a whitespace-only line is kept as content and resets the
terminator count), and every returned text is the strip of the
newline-join of a list of non-empty collected lines. -/
theorem C9_no_blank_lines :
    get_multiline_input ["a", "", "b", "", ""] = .text "a\nb"
    ∧ get_multiline_input ["a", "", "b", "", ""] ≠ .text "a\n\nb"
    ∧ get_multiline_input ["a", " ", "b", "", ""] = .text "a\n \nb"
    ∧ get_multiline_input ["", " ", "", "z", "", ""] = .text "z"
    ∧ (∀ input s, get_multiline_input input = .text s →
        ∃ ls, (∀ l ∈ ls, l ≠ "")
          ∧ s = pyStrip (String.intercalate "\n" ls)) := by
  refine ⟨by decide, by decide, by decide, by decide, ?_⟩
  intro input s h
  exact multilineLoop_text_shape input 0 [] (by simp) s h

/-- Witness for C9 applying the general shape part at a concrete input. -/
theorem C9_no_blank_lines_witness :
    get_multiline_input ["hi", "", ""] = .text "hi"
    ∧ ∃ ls, (∀ l ∈ ls, l ≠ "")
        ∧ "hi" = pyStrip (String.intercalate "\n" ls) :=
  ⟨by decide, C9_no_blank_lines.2.2.2.2 ["hi", "", ""] "hi" (by decide)⟩

/-- C2: with a provider that always reports failure, `answer_faq` and
`summarize_text` return the failure sentinel `None` and append no history
entry: the in-memory session list and the on-disk history file are both
unchanged by the failed operation. -/
theorem C2_failure_appends_nothing (provider : Provider)
    (hfail : ∀ msgs, ∃ e, provider msgs = .error e)
    (ts : String) (writeErr : Option String) (q text : String)
    (st : BotState) (disk : DiskState) :
    ((answer_faq provider ts writeErr q st disk).response = none
      ∧ (answer_faq provider ts writeErr q st disk).bot.conversation_history
          = st.conversation_history
      ∧ (answer_faq provider ts writeErr q st disk).disk = disk)
    ∧ ((summarize_text provider ts writeErr text st disk).response = none
      ∧ (summarize_text provider ts writeErr text st
            disk).bot.conversation_history
          = st.conversation_history
      ∧ (summarize_text provider ts writeErr text st disk).disk = disk) := by
  obtain ⟨e1, h1⟩ := hfail (buildMessages q (some FAQ_SYSTEM_PROMPT))
  obtain ⟨e2, h2⟩ :=
    hfail (buildMessages (summaryPrompt text) (some SUMMARIZE_SYSTEM_PROMPT))
  unfold answer_faq summarize_text send_to_openai
  rw [h1, h2]
  exact ⟨⟨rfl, rfl, rfl⟩, ⟨rfl, rfl, rfl⟩⟩

/-- Witness for C2 with the always-failing provider at concrete inputs. -/
theorem C2_failure_appends_nothing_witness :
    ((answer_faq (fun _ => .error "down") "t" none "why" initBot
        (.ok [])).response = none
      ∧ (answer_faq (fun _ => .error "down") "t" none "why" initBot
          (.ok [])).bot.conversation_history = initBot.conversation_history
      ∧ (answer_faq (fun _ => .error "down") "t" none "why" initBot
          (.ok [])).disk = .ok [])
    ∧ ((summarize_text (fun _ => .error "down") "t" none "long text" initBot
          (.ok [])).response = none
      ∧ (summarize_text (fun _ => .error "down") "t" none "long text" initBot
          (.ok [])).bot.conversation_history = initBot.conversation_history
      ∧ (summarize_text (fun _ => .error "down") "t" none "long text" initBot
          (.ok [])).disk = .ok []) :=
  C2_failure_appends_nothing (fun _ => .error "down")
    (fun _ => ⟨"down", rfl⟩) "t" none "why" "long text" initBot (.ok [])

/-- C3 counterexample: the request message `summarize_text` sends is not of
the form "provide a summary of the following text:\n\n{text}" claimed by
the spec: a provider that answers "matched" exactly on that message and
"unmatched" otherwise reports "unmatched" for the text "hello". -/
theorem C3_counterexample :
    (summarize_text
        (fun msgs =>
          if msgs
              = buildMessages "provide a summary of the following text:\n\nhello"
                  (some SUMMARIZE_SYSTEM_PROMPT)
            then .ok "matched" else .ok "unmatched")
        "t" none "hello" initBot .missing).response = some "unmatched" := by
  decide

/-- C3 (amended): `summarize_text text` sets the current mode to SUMMARIZE
and invokes the provider adapter with the summarization system prompt and
the request message "Please provide a clear and concise summary of the
following text:\n\n{text}", then returns the adapter result. -/
theorem C3_amended_summarize_request (provider : Provider) (ts : String)
    (writeErr : Option String) (text : String) (st : BotState)
    (disk : DiskState) :
    (summarize_text provider ts writeErr text st disk).bot.current_mode
        = some "SUMMARIZE"
    ∧ (summarize_text provider ts writeErr text st disk).response
        = (send_to_openai provider ts writeErr
            ("Please provide a clear and concise summary of the following text:\n\n"
              ++ text)
            (some SUMMARIZE_SYSTEM_PROMPT)
            { st with current_mode := some "SUMMARIZE" } disk).response
    ∧ (summarize_text provider ts writeErr text st disk).response
        = (match provider
              (buildMessages
                ("Please provide a clear and concise summary of the following text:\n\n"
                  ++ text)
                (some SUMMARIZE_SYSTEM_PROMPT)) with
            | .error _ => none
            | .ok raw => some (pyStrip raw)) := by
  refine ⟨?_, rfl, ?_⟩
  · unfold summarize_text send_to_openai
    cases hp : provider
        (buildMessages (summaryPrompt text) (some SUMMARIZE_SYSTEM_PROMPT)) with
    | error e => rfl
    | ok raw => cases writeErr <;> rfl
  · unfold summarize_text send_to_openai summaryPrompt
    cases hp : provider
        (buildMessages
          ("Please provide a clear and concise summary of the following text:\n\n"
            ++ text)
          (some SUMMARIZE_SYSTEM_PROMPT)) with
    | error e => rfl
    | ok raw => rfl

/-- C7: on a missing or unreadable history file, `_save_to_history` treats
the existing history as empty (warning printed in the read-error case),
still records the entry in the in-memory session list, and still writes the
one-entry array to disk. -/
theorem C7_missing_or_corrupt_history (ts : String) (ui ar : String)
    (m : Option String) (st : BotState) (disk : DiskState)
    (hbad : disk = .missing ∨ ∃ err, disk = .corrupt err) :
    ∃ e : ConversationEntry,
      (save_to_history ts none ui ar m st disk).bot.conversation_history
        = st.conversation_history ++ [e]
      ∧ (save_to_history ts none ui ar m st disk).disk = .ok [e]
      ∧ (∀ err, disk = .corrupt err →
          "Warning: Could not load history file: " ++ err
            ∈ (save_to_history ts none ui ar m st disk).console) := by
  refine ⟨{ timestamp := ts, mode := m, user_input := truncateField ui,
            ai_response := truncateField ar },
          save_to_history_bot ts none ui ar m st disk, ?_, ?_⟩
  · rcases hbad with h | ⟨err, h⟩ <;> subst h <;> rfl
  · intro err herr
    subst herr
    simp [save_to_history, loadHistory]

/-- Witness for C7 on a corrupt history file. -/
theorem C7_missing_or_corrupt_history_witness :
    ((DiskState.corrupt "bad json" = .missing
        ∨ ∃ err, DiskState.corrupt "bad json" = .corrupt err))
    ∧ ∃ e : ConversationEntry,
        (save_to_history "t" none "q" "a" (some "FAQ") initBot
            (.corrupt "bad json")).bot.conversation_history
          = initBot.conversation_history ++ [e]
        ∧ (save_to_history "t" none "q" "a" (some "FAQ") initBot
            (.corrupt "bad json")).disk = .ok [e]
        ∧ (∀ err, DiskState.corrupt "bad json" = .corrupt err →
            "Warning: Could not load history file: " ++ err
              ∈ (save_to_history "t" none "q" "a" (some "FAQ") initBot
                  (.corrupt "bad json")).console) :=
  ⟨Or.inr ⟨"bad json", rfl⟩,
   C7_missing_or_corrupt_history "t" "q" "a" (some "FAQ") initBot
     (.corrupt "bad json") (Or.inr ⟨"bad json", rfl⟩)⟩

theorem runOp_success (provider : Provider) (op : Op) (st : BotState)
    (d : List ConversationEntry) (t : String)
    (hp : provider (opMessages op) = .ok t) :
    (runOp provider none op st (.ok d)).bot.conversation_history
        = st.conversation_history ++ [expectedEntry provider op]
    ∧ (runOp provider none op st (.ok d)).disk
        = .ok (d ++ [expectedEntry provider op]) := by
  cases op with
  | faq q ts =>
    simp only [opMessages, opUserMessage, opSystemPrompt] at hp
    simp [runOp, answer_faq, send_to_openai, hp, save_to_history, loadHistory,
      expectedEntry, opMessages, opUserMessage, opSystemPrompt, opMode,
      opTimestamp, Except.toOption]
  | summarize txt ts =>
    simp only [opMessages, opUserMessage, opSystemPrompt] at hp
    simp [runOp, summarize_text, send_to_openai, hp, save_to_history,
      loadHistory, expectedEntry, opMessages, opUserMessage, opSystemPrompt,
      opMode, opTimestamp, Except.toOption]

theorem runOp_success_bot (provider : Provider) (writeErr : Option String)
    (op : Op) (st : BotState) (disk : DiskState) (t : String)
    (hp : provider (opMessages op) = .ok t) :
    (runOp provider writeErr op st disk).bot.conversation_history
      = st.conversation_history ++ [expectedEntry provider op] := by
  cases op with
  | faq q ts =>
    simp only [opMessages, opUserMessage, opSystemPrompt] at hp
    cases writeErr <;>
      simp [runOp, answer_faq, send_to_openai, hp, save_to_history,
        loadHistory, expectedEntry, opMessages, opUserMessage, opSystemPrompt,
        opMode, opTimestamp, Except.toOption]
  | summarize txt ts =>
    simp only [opMessages, opUserMessage, opSystemPrompt] at hp
    cases writeErr <;>
      simp [runOp, summarize_text, send_to_openai, hp, save_to_history,
        loadHistory, expectedEntry, opMessages, opUserMessage, opSystemPrompt,
        opMode, opTimestamp, Except.toOption]

theorem runOps_success_bot (provider : Provider)
    (hp : ∀ msgs, ∃ t, provider msgs = .ok t) (writeErr : Option String)
    (ops : List Op) :
    ∀ (st : BotState) (disk : DiskState),
      (runOps provider writeErr ops st disk).1.conversation_history
        = st.conversation_history ++ ops.map (expectedEntry provider) := by
  induction ops with
  | nil =>
    intro st disk
    simp [runOps]
  | cons op rest ih =>
    intro st disk
    obtain ⟨t, ht⟩ := hp (opMessages op)
    have h1 := runOp_success_bot provider writeErr op st disk t ht
    simp only [runOps]
    rw [ih, h1, List.map_cons, List.append_assoc]
    rfl

theorem runOps_success (provider : Provider)
    (hp : ∀ msgs, ∃ t, provider msgs = .ok t) (ops : List Op) :
    ∀ (st : BotState) (d : List ConversationEntry),
      (runOps provider none ops st (.ok d)).1.conversation_history
        = st.conversation_history ++ ops.map (expectedEntry provider)
      ∧ (runOps provider none ops st (.ok d)).2
        = .ok (d ++ ops.map (expectedEntry provider)) := by
  induction ops with
  | nil =>
    intro st d
    simp [runOps]
  | cons op rest ih =>
    intro st d
    obtain ⟨t, ht⟩ := hp (opMessages op)
    obtain ⟨h1, h2⟩ := runOp_success provider op st d t ht
    simp only [runOps]
    rw [h2]
    obtain ⟨ih1, ih2⟩ :=
      ih (runOp provider none op st (.ok d)).bot
        (d ++ [expectedEntry provider op])
    refine ⟨?_, ?_⟩
    · rw [ih1, h1, List.map_cons, List.append_assoc]
      rfl
    · rw [ih2, List.map_cons, List.append_assoc]
      rfl

/-- C6: after a session of N successful operations, the in-memory session
list holds exactly the N expected entries in call order, whatever the disk
state and the outcome of the disk writes; and when the writes succeed and
the file held the array `h0` at session start, the on-disk array holds
those same N entries appended after `h0`. -/
theorem C6_session_and_disk_accumulate (provider : Provider)
    (hp : ∀ msgs, ∃ t, provider msgs = .ok t) (ops : List Op)
    (writeErr : Option String) (st : BotState) (disk : DiskState)
    (hstart : st.conversation_history = []) :
    (runOps provider writeErr ops st disk).1.conversation_history
      = ops.map (expectedEntry provider)
    ∧ (runOps provider writeErr ops st disk).1.conversation_history.length
      = ops.length
    ∧ (∀ h0 : List ConversationEntry, writeErr = none → disk = .ok h0 →
        (runOps provider writeErr ops st disk).2
          = .ok (h0
              ++ (runOps provider writeErr ops st
                    disk).1.conversation_history)) := by
  have h1 := runOps_success_bot provider hp writeErr ops st disk
  rw [hstart, List.nil_append] at h1
  refine ⟨h1, by rw [h1, List.length_map], ?_⟩
  rintro h0 rfl rfl
  obtain ⟨_, h2⟩ := runOps_success provider hp ops st h0
  rw [h2, h1]

/-- Witness for C6: two successful operations, once in a session whose
every disk write fails (the session list still holds exactly the expected
entries) and once with succeeding writes after a one-entry on-disk history
(the disk accumulates them). -/
theorem C6_session_and_disk_accumulate_witness :
    ((runOps (fun _ => Except.ok "ans") (some "disk full")
        [Op.faq "why" "t1", Op.summarize "body" "t2"] initBot
        (.ok [{ timestamp := "t0", mode := some "FAQ", user_input := "old",
                ai_response := "old" }])).1.conversation_history
      = [Op.faq "why" "t1", Op.summarize "body" "t2"].map
          (expectedEntry (fun _ => Except.ok "ans"))
    ∧ (runOps (fun _ => Except.ok "ans") (some "disk full")
        [Op.faq "why" "t1", Op.summarize "body" "t2"] initBot
        (.ok [{ timestamp := "t0", mode := some "FAQ", user_input := "old",
                ai_response := "old" }])).1.conversation_history.length
      = [Op.faq "why" "t1", Op.summarize "body" "t2"].length)
    ∧ (runOps (fun _ => Except.ok "ans") none
        [Op.faq "why" "t1", Op.summarize "body" "t2"] initBot
        (.ok [{ timestamp := "t0", mode := some "FAQ", user_input := "old",
                ai_response := "old" }])).2
      = .ok ([{ timestamp := "t0", mode := some "FAQ", user_input := "old",
                ai_response := "old" }]
          ++ (runOps (fun _ => Except.ok "ans") none
              [Op.faq "why" "t1", Op.summarize "body" "t2"] initBot
              (.ok [{ timestamp := "t0", mode := some "FAQ",
                      user_input := "old",
                      ai_response := "old" }])).1.conversation_history) :=
  ⟨⟨(C6_session_and_disk_accumulate (fun _ => Except.ok "ans")
      (fun _ => ⟨"ans", rfl⟩) [Op.faq "why" "t1", Op.summarize "body" "t2"]
      (some "disk full") initBot
      (.ok [{ timestamp := "t0", mode := some "FAQ", user_input := "old",
              ai_response := "old" }]) rfl).1,
    (C6_session_and_disk_accumulate (fun _ => Except.ok "ans")
      (fun _ => ⟨"ans", rfl⟩) [Op.faq "why" "t1", Op.summarize "body" "t2"]
      (some "disk full") initBot
      (.ok [{ timestamp := "t0", mode := some "FAQ", user_input := "old",
              ai_response := "old" }]) rfl).2.1⟩,
   (C6_session_and_disk_accumulate (fun _ => Except.ok "ans")
      (fun _ => ⟨"ans", rfl⟩) [Op.faq "why" "t1", Op.summarize "body" "t2"]
      none initBot
      (.ok [{ timestamp := "t0", mode := some "FAQ", user_input := "old",
              ai_response := "old" }]) rfl).2.2
     [{ timestamp := "t0", mode := some "FAQ", user_input := "old",
        ai_response := "old" }] rfl rfl⟩

theorem send_to_openai_append (provider : Provider) (ts : String)
    (writeErr : Option String) (msg : String) (sys : Option String)
    (st : BotState) (disk : DiskState) :
    ∃ app : List ConversationEntry,
      (∀ e ∈ app, e.mode = st.current_mode)
      ∧ (send_to_openai provider ts writeErr msg sys st
            disk).bot.conversation_history
          = st.conversation_history ++ app
      ∧ (diskEntries (send_to_openai provider ts writeErr msg sys st disk).disk
            = diskEntries disk
          ∨ diskEntries
                (send_to_openai provider ts writeErr msg sys st disk).disk
              = diskEntries disk ++ app) := by
  unfold send_to_openai
  cases hp : provider (buildMessages msg sys) with
  | error e => exact ⟨[], by simp, by simp, Or.inl rfl⟩
  | ok raw =>
    refine ⟨[{ timestamp := ts, mode := st.current_mode,
               user_input := truncateField msg,
               ai_response := truncateField (pyStrip raw) }], by simp, ?_, ?_⟩
    · exact save_to_history_bot ts writeErr msg (pyStrip raw) st.current_mode
        st disk
    · cases writeErr with
      | none =>
        right
        show diskEntries
            (save_to_history ts none msg (pyStrip raw) st.current_mode st
              disk).disk
          = diskEntries disk ++ _
        rw [save_to_history_disk_ok ts msg (pyStrip raw) st.current_mode st
          disk]
        rfl
      | some err => exact Or.inl rfl

theorem runOp_append (provider : Provider) (writeErr : Option String)
    (op : Op) (st : BotState) (disk : DiskState) :
    ∃ app : List ConversationEntry,
      (∀ e ∈ app, e.mode = some (opMode op))
      ∧ (runOp provider writeErr op st disk).bot.conversation_history
          = st.conversation_history ++ app
      ∧ (diskEntries (runOp provider writeErr op st disk).disk
            = diskEntries disk
          ∨ diskEntries (runOp provider writeErr op st disk).disk
            = diskEntries disk ++ app) := by
  cases op with
  | faq q ts =>
    obtain ⟨app, h1, h2, h3⟩ :=
      send_to_openai_append provider ts writeErr q (some FAQ_SYSTEM_PROMPT)
        { st with current_mode := some "FAQ" } disk
    exact ⟨app, by simpa [opMode] using h1,
      by simpa [runOp, answer_faq] using h2,
      by simpa [runOp, answer_faq] using h3⟩
  | summarize txt ts =>
    obtain ⟨app, h1, h2, h3⟩ :=
      send_to_openai_append provider ts writeErr (summaryPrompt txt)
        (some SUMMARIZE_SYSTEM_PROMPT) { st with current_mode := some "SUMMARIZE" }
        disk
    exact ⟨app, by simpa [opMode] using h1,
      by simpa [runOp, summarize_text] using h2,
      by simpa [runOp, summarize_text] using h3⟩

/-- C8: every entry persisted by a session of engine operations has its
mode set (never `None`), because `answer_faq` and `summarize_text` assign
the mode before the provider call, so the save always sees an assigned
mode; the other three fields are populated by construction of the entry. -/
theorem C8_mode_always_set (provider : Provider) (writeErr : Option String)
    (ops : List Op) :
    ∀ (st : BotState) (disk : DiskState),
      (∀ e ∈ st.conversation_history, e.mode ≠ none) →
      (∀ e ∈ diskEntries disk, e.mode ≠ none) →
      (∀ e ∈ (runOps provider writeErr ops st disk).1.conversation_history,
          e.mode ≠ none)
      ∧ (∀ e ∈ diskEntries (runOps provider writeErr ops st disk).2,
          e.mode ≠ none) := by
  induction ops with
  | nil =>
    intro st disk hm hd
    exact ⟨hm, hd⟩
  | cons op rest ih =>
    intro st disk hm hd
    obtain ⟨app, h1, h2, h3⟩ := runOp_append provider writeErr op st disk
    simp only [runOps]
    apply ih
    · rw [h2]
      intro e he
      rcases List.mem_append.mp he with h | h
      · exact hm e h
      · rw [h1 e h]
        simp
    · rcases h3 with h3 | h3 <;> rw [h3]
      · exact hd
      · intro e he
        rcases List.mem_append.mp he with h | h
        · exact hd e h
        · rw [h1 e h]
          simp

/-- Witness for C8: one successful FAQ operation from the initial state and
an empty on-disk array. -/
theorem C8_mode_always_set_witness :
    (∀ e ∈ (runOps (fun _ => Except.ok "ans") none [Op.faq "why" "t"] initBot
        (.ok [])).1.conversation_history, e.mode ≠ none)
    ∧ (∀ e ∈ diskEntries (runOps (fun _ => Except.ok "ans") none
        [Op.faq "why" "t"] initBot (.ok [])).2, e.mode ≠ none) :=
  C8_mode_always_set (fun _ => Except.ok "ans") none [Op.faq "why" "t"]
    initBot (.ok []) (by simp [initBot]) (by simp [diskEntries])

end Chatbot
